import Mathlib

/-!
Verification of the Smart Solar Repositioning API (backend/main.py).

The backend is a single FastAPI handler plus four pure helper functions.
We embed the numeric code over `ℚ` (Python floats idealised as exact
rationals), Python's `%` on floats as `pyMod`, Python's banker's rounding
`round` as `pyRoundInt`/`pyRound1`, and the fallible weather fetch as a
function from an explicit fetch outcome.  String formatting of numbers
(`%.1f` etc.) is abstracted by `fmtF1`/`fmtF0`; no claim inspects the
formatted digits, only string identity and list structure.
-/

/-- Python `a % b` on floats (sign of the divisor): `a - b * floor (a / b)`. -/
def pyMod (a b : ℚ) : ℚ := a - b * (⌊a / b⌋ : ℤ)

/-- Python 3 `round(x)`: round half to even, returning an integer. -/
def pyRoundInt (x : ℚ) : ℤ :=
  let f := ⌊x⌋
  let r := x - f
  if r < 1/2 then f
  else if 1/2 < r then f + 1
  else if f % 2 = 0 then f else f + 1

/-- Python `round(x, 1)`: round to one decimal place. -/
def pyRound1 (x : ℚ) : ℚ := (pyRoundInt (x * 10) : ℚ) / 10

/-- Abstraction of Python `f"{x:.1f}"` number formatting inside strings. -/
def fmtF1 (x : ℚ) : String := toString (pyRound1 x)

/-- Abstraction of Python `f"{x:.0f}"` number formatting inside strings. -/
def fmtF0 (x : ℚ) : String := toString (pyRoundInt x)

/-- Helper for `np.argmax` (first index of the maximum). -/
def np_argmax_aux : List ℚ → ℕ → ℕ → ℚ → ℕ
  | [], _, best_i, _ => best_i
  | x :: xs, i, best_i, best_v =>
    if best_v < x then np_argmax_aux xs (i + 1) i x
    else np_argmax_aux xs (i + 1) best_i best_v

/-- `np.argmax` on a rational list: first index attaining the maximum. -/
def np_argmax : List ℚ → ℕ
  | [] => 0
  | x :: xs => np_argmax_aux xs 1 0 x

/-- Helper for `np.argmin` (first index of the minimum). -/
def np_argmin_aux : List ℚ → ℕ → ℕ → ℚ → ℕ
  | [], _, best_i, _ => best_i
  | x :: xs, i, best_i, best_v =>
    if x < best_v then np_argmin_aux xs (i + 1) i x
    else np_argmin_aux xs (i + 1) best_i best_v

/-- `np.argmin` on a rational list: first index attaining the minimum. -/
def np_argmin : List ℚ → ℕ
  | [] => 0
  | x :: xs => np_argmin_aux xs 1 0 x

/-- The `"current"` block of an Open-Meteo response, as far as the backend
reads it.  `none` fields model keys that are absent (Python `dict.get`
returns `None` for them). -/
structure Current where
  temperature_2m : Option ℚ
  relative_humidity_2m : Option ℚ
  cloud_cover : Option ℚ
  wind_speed_10m : Option ℚ
  weather_code : Option ℤ
  is_day : Option ℤ

/-- The dictionary returned by `get_weather_data` on success
(main.py lines 73-82; the unbounded `raw_data` passthrough is omitted,
no claim touches it). -/
structure WeatherData where
  temperature : ℚ
  humidity : ℤ
  cloud_cover : ℤ
  weather_description : String
  wind_speed : ℚ
  visibility : ℚ
  weather_icon : String

/-- Outcome of the outbound HTTP call in `get_weather_data`:
`failure` is any `requests.exceptions.RequestException` (network error,
timeout, non-2xx via `raise_for_status`, invalid JSON); `response cur`
is a parsed 2xx body whose `"current"` block is `cur` (`none` when the
key is missing or the block is empty, i.e. `not current` in Python). -/
inductive FetchOutcome where
  | failure
  | response (current : Option Current)

/-- A Python exception escaping `get_weather_data` that is NOT a
`RequestException`: `round(None, ...)` raises `TypeError`. -/
inductive PyError where
  | typeError

/-- Request body of `POST /api/solar-data` (main.py lines 21-24). -/
structure SolarRequest where
  latitude : ℚ
  longitude : ℚ
  include_weather : Bool

/-- One `{"month": ..., "value": ...}` entry of `monthly_data`. -/
structure MonthEntry where
  month : String
  value : ℚ

/-- The JSON object returned by `get_solar_data` (main.py lines 232-247). -/
structure SolarResponse where
  latitude : ℚ
  longitude : ℚ
  optimal_tilt : ℚ
  optimal_azimuth : ℚ
  annual_irradiance : ℚ
  efficiency_gain : ℚ
  monthly_data : List MonthEntry
  peak_month : String
  low_month : String
  tips : List String
  summary_text : String
  orientation_text : String
  weather_adjusted : Bool
  weather_data : Option WeatherData

/-- Result of the request handler: a 200 response or an
`HTTPException(status_code=...)` raised by the outer `except` clause. -/
inductive HandlerResult where
  | ok (resp : SolarResponse)
  | httpError (status : ℕ)

/-- `_get_weather_description_and_icon` (main.py lines 26-47). -/
def _get_weather_description_and_icon (wmo_code : ℤ) (is_day : ℤ) : String × String :=
  let day_night := if is_day = 1 then "d" else "n"
  if wmo_code = 0 then ("Clear sky", "01" ++ day_night)
  else if wmo_code ∈ ([1, 2, 3] : List ℤ) then ("Partly cloudy", "02" ++ day_night)
  else if wmo_code ∈ ([45, 48] : List ℤ) then ("Fog", "50d")
  else if wmo_code ∈ ([51, 53, 55, 56, 57] : List ℤ) then ("Drizzle", "09" ++ day_night)
  else if wmo_code ∈ ([61, 63, 65, 66, 67] : List ℤ) then ("Rain", "10" ++ day_night)
  else if wmo_code ∈ ([71, 73, 75, 77] : List ℤ) then ("Snow", "13" ++ day_night)
  else if wmo_code ∈ ([80, 81, 82, 85, 86] : List ℤ) then ("Rain showers", "09" ++ day_night)
  else if wmo_code ∈ ([95, 96, 99] : List ℤ) then ("Thunderstorm", "11" ++ day_night)
  else ("Unknown", "01" ++ day_night)

/-- `get_weather_data` (main.py lines 49-85).  Only
`requests.exceptions.RequestException` is caught (line 83): a transport
failure or a missing or empty `"current"` block yields `None`, but if the
block is present and one of the four unconditionally-rounded fields is
absent, `round(None, ...)` raises `TypeError`, which escapes. -/
def get_weather_data : FetchOutcome → Except PyError (Option WeatherData)
  | FetchOutcome.failure => Except.ok none
  | FetchOutcome.response none => Except.ok none
  | FetchOutcome.response (some current) =>
    match current.temperature_2m, current.relative_humidity_2m,
        current.cloud_cover, current.wind_speed_10m with
    | some t, some h, some cc, some ws =>
      let wmo_code := current.weather_code.getD 0
      let is_day := current.is_day.getD 1
      let di := _get_weather_description_and_icon wmo_code is_day
      Except.ok (some {
        temperature := pyRound1 t
        humidity := pyRoundInt h
        cloud_cover := pyRoundInt cc
        weather_description := di.1
        wind_speed := pyRound1 ws
        visibility := 10
        weather_icon := di.2 })
    | _, _, _, _ => Except.error PyError.typeError

/-- `_calculate_realistic_annual_poa` (main.py lines 87-109). -/
def _calculate_realistic_annual_poa (latitude longitude tilt : ℚ) : ℚ :=
  let lat_abs := |latitude|
  let base_poa : ℚ :=
    if lat_abs < 10 then 1900
    else if lat_abs < 20 then 1750
    else if lat_abs < 30 then 1800
    else if lat_abs < 45 then 1500
    else if lat_abs < 60 then 1200
    else 800
  let base_poa :=
    if 8 ≤ lat_abs ∧ lat_abs ≤ 37 ∧ 68 ≤ longitude ∧ longitude ≤ 97 then
      (if longitude < 77 ∨ 92 < longitude then base_poa * 0.85 else base_poa * 0.90)
    else base_poa
  let optimal_tilt := min lat_abs 35
  let tilt_diff := |tilt - optimal_tilt|
  let tilt_penalty := max 0.75 (1 - 0.01 * tilt_diff)
  base_poa * tilt_penalty

/-- The seasonal-weight template chosen in `_calculate_monthly_distribution`
(main.py lines 112-124), including the southern-hemisphere rotation. -/
def monthly_factors (latitude longitude : ℚ) : List ℚ :=
  let lat_abs := |latitude|
  let is_monsoon_region := 8 ≤ lat_abs ∧ lat_abs ≤ 37 ∧ 68 ≤ longitude ∧ longitude ≤ 97
  let base : List ℚ :=
    if is_monsoon_region then
      [0.90, 0.85, 1.05, 1.10, 1.05, 0.60, 0.50, 0.55, 0.70, 0.95, 0.90, 0.90]
    else if lat_abs < 23.5 then
      [0.84, 0.86, 0.89, 0.88, 0.85, 0.78, 0.80, 0.83, 0.85, 0.87, 0.87, 0.85]
    else if lat_abs < 45 then
      [0.63, 0.71, 0.84, 0.95, 1.06, 1.08, 1.09, 1.03, 0.88, 0.76, 0.62, 0.55]
    else
      [0.35, 0.55, 0.82, 1.08, 1.28, 1.35, 1.33, 1.15, 0.88, 0.65, 0.40, 0.26]
  if latitude < 0 then base.drop 6 ++ base.take 6 else base

/-- `_calculate_monthly_distribution` (main.py lines 111-132). -/
def _calculate_monthly_distribution (latitude longitude annual_total : ℚ) : List ℚ :=
  let mf := monthly_factors latitude longitude
  let total_factor := mf.sum
  let monthly_fractions := mf.map (fun f => f / total_factor)
  let monthly_values := monthly_fractions.map (fun frac => annual_total * frac)
  let actual_sum := monthly_values.sum
  if 0 < actual_sum then
    let scale := annual_total / actual_sum
    monthly_values.map (fun v => v * scale)
  else monthly_values

/-- `_get_direction_name` (main.py lines 134-152). -/
def _get_direction_name (azimuth : ℚ) : String :=
  let az := pyMod azimuth 360
  if az < 22.5 ∨ 337.5 ≤ az then "North"
  else if az < 67.5 then "North-East"
  else if az < 112.5 then "East"
  else if az < 157.5 then "South-East"
  else if az < 202.5 then "South"
  else if az < 247.5 then "South-West"
  else if az < 292.5 then "West"
  else if az < 337.5 then "North-West"
  else "North"

/-- The tilt computed by the handler (main.py lines 167-171). -/
def optimal_tilt (lat : ℚ) : ℚ :=
  let t := min (|lat|) 35
  if t ≤ 25 then t + 2
  else if 50 < t then t - 3
  else t

/-- The azimuth computed by the handler (main.py line 172). -/
def optimal_azimuth (lat : ℚ) : ℚ := if lat ≥ 0 then 180 else 0

/-- Month labels used in `monthly_data` (main.py lines 187-188). -/
def months_abbr : List String :=
  ["Jan", "Feb", "Mar", "Apr", "May", "Jun", "Jul", "Aug", "Sep", "Oct", "Nov", "Dec"]

/-- Full month names used for peak and low months (main.py lines 190-191). -/
def months_full : List String :=
  ["January", "February", "March", "April", "May", "June",
   "July", "August", "September", "October", "November", "December"]

/-- Tip strings built by the handler (main.py lines 209-230). -/
def tip_tropical_1 : String := "Your tropical location receives consistent solar irradiance year-round"

/-- Second tropical-band tip (main.py line 213). -/
def tip_tropical_2 : String := "Consider tracking systems for maximum efficiency due to high sun angles"

/-- First temperate-band tip (main.py line 215). -/
def tip_temperate_1 : String := "Seasonal adjustment of tilt angle can increase annual energy yield by 3-5%"

/-- Second temperate-band tip (main.py line 216). -/
def tip_temperate_2 : String := "Consider east-west orientation to reduce afternoon overheating"

/-- First high-latitude tip (main.py line 218). -/
def tip_highlat_1 : String := "Winter conditions may impact performance - ensure easy cleaning access"

/-- Second high-latitude tip (main.py line 219). -/
def tip_highlat_2 : String := "Consider higher mounting to maximize winter sun exposure"

/-- General cleaning tip (main.py line 222). -/
def tip_cleaning : String := "Regular cleaning improves efficiency by 2-5%"

/-- General shading tip (main.py line 223). -/
def tip_shading : String := "Avoid shading between 10 AM - 2 PM for optimal performance"

/-- General tilt tip, interpolating the computed tilt (main.py line 224). -/
def tip_tilt (t : ℚ) : String :=
  "Optimal tilt angle of " ++ fmtF1 t ++ "° is ideal for your latitude"

/-- Cloud-cover tip, interpolating the cloud cover (main.py line 228). -/
def tip_cloud (cc : ℤ) : String :=
  "High cloud cover (" ++ toString cc ++ "%) may reduce current efficiency"

/-- High-humidity tip (main.py line 230). -/
def tip_humidity : String := "High humidity - ensure proper ventilation around panels"

/-- The handler of `POST /api/solar-data` (main.py lines 162-251).  The
outbound weather call is abstracted by the `fetch` argument; the outer
`try`/`except` converts any escaping exception (only `get_weather_data`
can raise one) into an `HTTPException(500)`. -/
def get_solar_data (request : SolarRequest) (fetch : FetchOutcome) : HandlerResult :=
  let lat := request.latitude
  let lng := request.longitude
  let ot := optimal_tilt lat
  let oa := optimal_azimuth lat
  let annual_poa := _calculate_realistic_annual_poa lat lng ot
  let efficiency_gain := min 25 (5 + |lat| * 0.3)
  let weatherRes : Except PyError (Option WeatherData) :=
    if request.include_weather then get_weather_data fetch else Except.ok none
  match weatherRes with
  | Except.error _ => HandlerResult.httpError 500
  | Except.ok weather_data =>
    let adj : ℚ × ℚ :=
      match weather_data with
      | some wd =>
        let cloud_penalty := ((wd.cloud_cover : ℚ) / 100) * 0.3
        let humidity_penalty := max 0 (((wd.humidity : ℚ) - 60) / 100) * 0.1
        (efficiency_gain * (1 - cloud_penalty - humidity_penalty),
          annual_poa * (1 - cloud_penalty * 0.5))
      | none => (efficiency_gain, annual_poa)
    let weather_adjusted_efficiency := adj.1
    let weather_adjusted_poa := adj.2
    let monthly_values := _calculate_monthly_distribution lat lng weather_adjusted_poa
    let monthly_data := (List.range 12).map (fun i =>
      MonthEntry.mk (months_abbr.getD i "") (pyRound1 (monthly_values.getD i 0)))
    let max_idx := np_argmax monthly_values
    let min_idx := np_argmin monthly_values
    let direction := _get_direction_name oa
    let summary_text :=
      "The solar array is optimally positioned at a " ++ fmtF1 ot ++ "° tilt angle, facing "
        ++ direction.toLower ++ " (azimuth " ++ toString (pyRoundInt oa) ++ "°). "
        ++ "This configuration maximizes solar energy capture, delivering an estimated "
        ++ toString (pyRoundInt weather_adjusted_poa)
        ++ " kilowatt-hours per square meter annually. "
        ++ "Peak production occurs in " ++ months_full.getD max_idx "" ++ " ("
        ++ fmtF0 (monthly_values.getD max_idx 0) ++ " kWh/m²), "
        ++ "while " ++ months_full.getD min_idx "" ++ " shows the lowest output ("
        ++ fmtF0 (monthly_values.getD min_idx 0) ++ " kWh/m²)."
    let band_tips : List String :=
      if |lat| < 23.5 then [tip_tropical_1, tip_tropical_2]
      else if |lat| < 40 then [tip_temperate_1, tip_temperate_2]
      else [tip_highlat_1, tip_highlat_2]
    let base_tips := band_tips ++ [tip_cleaning, tip_shading, tip_tilt ot]
    let tips : List String :=
      match weather_data with
      | some wd =>
        (if 70 < wd.cloud_cover then [tip_cloud wd.cloud_cover] else [])
          ++ base_tips
          ++ (if 80 < wd.humidity then [tip_humidity] else [])
      | none => base_tips
    HandlerResult.ok {
      latitude := lat
      longitude := lng
      optimal_tilt := pyRound1 ot
      optimal_azimuth := pyRound1 oa
      annual_irradiance := pyRound1 weather_adjusted_poa
      efficiency_gain := pyRound1 weather_adjusted_efficiency
      monthly_data := monthly_data
      peak_month := months_full.getD max_idx ""
      low_month := months_full.getD min_idx ""
      tips := tips.take 6
      summary_text := summary_text
      orientation_text := "Face panels toward " ++ direction ++ " ("
        ++ toString (pyRoundInt oa) ++ "°) at " ++ fmtF1 ot ++ "° tilt"
      weather_adjusted := request.include_weather
      weather_data := weather_data
    }

/-- Projection of a handler result onto its 200-response, if any. -/
def response_of : HandlerResult → Option SolarResponse
  | HandlerResult.ok resp => some resp
  | HandlerResult.httpError _ => none

/-- The eight compass names in clockwise order starting at north. -/
def compass_names : List String :=
  ["North", "North-East", "East", "South-East", "South", "South-West", "West", "North-West"]

/-- Modelled from the spec: the 8-bin compass mapping with bin width 45°
centered on the compass points and wrap-around at 0°/360° (spec section 4.2).
The bin index is the nearest multiple of 45° (ties rounding up), mod 8. -/
def compassBinSpec (azimuth : ℚ) : String :=
  let az := pyMod azimuth 360
  compass_names.getD (Int.toNat ((⌊az / 45 + 1/2⌋) % 8)) "North"

/-- A `"current"` block that is present and non-empty but lacks
`temperature_2m` (a malformed block): the failing input for claim C4. -/
def current_missing_temp : Current :=
  { temperature_2m := none
    relative_humidity_2m := some 50
    cloud_cover := some 20
    wind_speed_10m := some 5
    weather_code := some 0
    is_day := some 1 }

/-- A well-formed `"current"` block used by witnesses. -/
def current_example : Current :=
  { temperature_2m := some 25
    relative_humidity_2m := some 85
    cloud_cover := some 80
    wind_speed_10m := some 5
    weather_code := some 0
    is_day := some 1 }

/-- The weather dictionary `get_weather_data` builds from `current_example`. -/
def weather_example : WeatherData :=
  { temperature := pyRound1 25
    humidity := pyRoundInt 85
    cloud_cover := pyRoundInt 80
    weather_description := (_get_weather_description_and_icon 0 1).1
    wind_speed := pyRound1 5
    visibility := 10
    weather_icon := (_get_weather_description_and_icon 0 1).2 }

/-- A request with weather enabled, used by witnesses. -/
def req_weather_example : SolarRequest := ⟨10, 20, true⟩

/-- The fetch outcome delivering `current_example`, used by witnesses. -/
def fetch_example : FetchOutcome := FetchOutcome.response (some current_example)

/-- The response the handler produces for `req_weather_example` and
`fetch_example` (the fallback branch is unreachable there). -/
def resp_example : SolarResponse :=
  match get_solar_data req_weather_example fetch_example with
  | HandlerResult.ok r => r
  | HandlerResult.httpError _ =>
    { latitude := 0, longitude := 0, optimal_tilt := 0, optimal_azimuth := 0,
      annual_irradiance := 0, efficiency_gain := 0, monthly_data := [],
      peak_month := "", low_month := "", tips := [], summary_text := "",
      orientation_text := "", weather_adjusted := false, weather_data := none }

/-- Summing a list after multiplying every entry by a constant. -/
theorem list_sum_map_mul_const (l : List ℚ) (c : ℚ) :
    (l.map (fun x => x * c)).sum = l.sum * c := by
  induction l with
  | nil => simp
  | cons x xs ih => simp [ih, add_mul]

/-- Rotating a list by six positions preserves its sum. -/
theorem list_sum_rot6 (l : List ℚ) : (l.drop 6 ++ l.take 6).sum = l.sum := by
  rw [List.sum_append, add_comm, ← List.sum_append, List.take_append_drop]

/-- Membership in a list rotated by six positions. -/
theorem mem_of_mem_rot6 {x : ℚ} {l : List ℚ} (h : x ∈ l.drop 6 ++ l.take 6) : x ∈ l := by
  rcases List.mem_append.mp h with h | h
  · exact List.mem_of_mem_drop h
  · exact List.mem_of_mem_take h

/-- Every seasonal-weight template has positive total weight. -/
theorem monthly_factors_sum_pos (lat lng : ℚ) : 0 < (monthly_factors lat lng).sum := by
  simp only [monthly_factors]
  repeat' split
  all_goals first
    | (rw [list_sum_rot6]; norm_num)
    | norm_num

/-- Every seasonal-weight template entry is nonnegative. -/
theorem monthly_factors_nonneg (lat lng : ℚ) : ∀ x ∈ monthly_factors lat lng, 0 ≤ x := by
  intro x hx
  simp only [monthly_factors] at hx
  split at hx
  · replace hx := mem_of_mem_rot6 hx
    repeat' split at hx
    all_goals fin_cases hx <;> norm_num
  · repeat' split at hx
    all_goals fin_cases hx <;> norm_num

/-- The monthly distribution sums exactly to the annual total it is given. -/
theorem monthly_distribution_sum (lat lng annual : ℚ) :
    (_calculate_monthly_distribution lat lng annual).sum = annual := by
  have hT := monthly_factors_sum_pos lat lng
  have hT0 : (monthly_factors lat lng).sum ≠ 0 := ne_of_gt hT
  simp only [_calculate_monthly_distribution]
  have hmap :
      (((monthly_factors lat lng).map fun f => f / (monthly_factors lat lng).sum).map
        fun frac => annual * frac).sum = annual := by
    rw [List.map_map]
    have hfun :
        ((fun frac => annual * frac) ∘ fun f => f / (monthly_factors lat lng).sum) =
          fun f => f * (annual / (monthly_factors lat lng).sum) := by
      funext f
      simp only [Function.comp]
      ring
    rw [hfun, list_sum_map_mul_const]
    field_simp
  split
  case isTrue h =>
    rw [list_sum_map_mul_const, hmap]
    rw [hmap] at h
    field_simp
  case isFalse h => exact hmap

/-- The monthly distribution values are nonnegative for nonnegative input. -/
theorem monthly_distribution_nonneg (lat lng annual : ℚ) (ha : 0 ≤ annual) :
    ∀ v ∈ _calculate_monthly_distribution lat lng annual, 0 ≤ v := by
  have hT := monthly_factors_sum_pos lat lng
  have hval : ∀ v ∈ ((monthly_factors lat lng).map
      fun f => f / (monthly_factors lat lng).sum).map (fun frac => annual * frac), 0 ≤ v := by
    intro v hv
    rcases List.mem_map.mp hv with ⟨frac, hfrac, rfl⟩
    rcases List.mem_map.mp hfrac with ⟨f, hf, rfl⟩
    exact mul_nonneg ha (div_nonneg (monthly_factors_nonneg lat lng f hf) hT.le)
  intro v hv
  simp only [_calculate_monthly_distribution] at hv
  split at hv
  case isTrue h =>
    rcases List.mem_map.mp hv with ⟨w, hw, rfl⟩
    exact mul_nonneg (hval w hw) (div_nonneg ha h.le)
  case isFalse h => exact hval v hv

/-- The monthly distribution always has twelve entries. -/
theorem monthly_distribution_length (lat lng annual : ℚ) :
    (_calculate_monthly_distribution lat lng annual).length = 12 := by
  have hl : (monthly_factors lat lng).length = 12 := by
    simp only [monthly_factors]
    repeat' split
    all_goals simp
  simp only [_calculate_monthly_distribution]
  split <;> simp [hl]

/-- The distribution of a zero annual total is twelve zeros. -/
theorem monthly_distribution_zero :
    _calculate_monthly_distribution 0 0 0 = [0, 0, 0, 0, 0, 0, 0, 0, 0, 0, 0, 0] := by
  norm_num [_calculate_monthly_distribution, monthly_factors]

/-- C1: for every latitude in [-90, 90] the tilt computed by the
`/api/solar-data` handler equals `min (|latitude|) 35` plus 2 when
`min (|latitude|) 35 ≤ 25` and plus 0 otherwise, and the guard of the
`> 50` subtract-3 branch is never satisfied. -/
theorem C1_optimal_tilt_formula (lat : ℚ) (h₁ : -90 ≤ lat) (h₂ : lat ≤ 90) :
    optimal_tilt lat = min (|lat|) 35 + (if min (|lat|) 35 ≤ 25 then 2 else 0) ∧
      ¬ 50 < min (|lat|) 35 := by
  have hm : min (|lat|) 35 ≤ 35 := min_le_right _ _
  constructor
  · simp only [optimal_tilt]
    by_cases h : min (|lat|) 35 ≤ 25
    · rw [if_pos h, if_pos h]
    · rw [if_neg h, if_neg (by linarith : ¬ 50 < min (|lat|) 35), if_neg h, add_zero]
  · intro hc
    linarith

/-- Witness for C1 at latitude 10. -/
theorem C1_witness :
    (-90 ≤ (10 : ℚ)) ∧ (10 : ℚ) ≤ 90 ∧
      (optimal_tilt 10 = min (|(10 : ℚ)|) 35 + (if min (|(10 : ℚ)|) 35 ≤ 25 then 2 else 0) ∧
        ¬ 50 < min (|(10 : ℚ)|) 35) :=
  ⟨by norm_num, by norm_num, C1_optimal_tilt_formula 10 (by norm_num) (by norm_num)⟩

/-- C2: for every latitude, longitude and annual total, the monthly
distribution has twelve values, they sum exactly to the annual total that
was passed in (hence within 1e-6 relative tolerance), and every value is
nonnegative whenever the annual total is nonnegative. -/
theorem C2_monthly_distribution_sum (lat lng annual : ℚ) :
    (_calculate_monthly_distribution lat lng annual).length = 12 ∧
      (_calculate_monthly_distribution lat lng annual).sum = annual ∧
      (0 ≤ annual → ∀ v ∈ _calculate_monthly_distribution lat lng annual, 0 ≤ v) :=
  ⟨monthly_distribution_length lat lng annual, monthly_distribution_sum lat lng annual,
    monthly_distribution_nonneg lat lng annual⟩

/-- Witness for C2 at latitude 0, longitude 0, annual total 0. -/
theorem C2_witness :
    0 ≤ (0 : ℚ) ∧ (_calculate_monthly_distribution 0 0 0).sum = 0 ∧
      0 ≤ (_calculate_monthly_distribution 0 0 0).getD 0 0 :=
  ⟨le_refl 0, (C2_monthly_distribution_sum 0 0 0).2.1,
    (C2_monthly_distribution_sum 0 0 0).2.2 (le_refl 0) _
      (by rw [monthly_distribution_zero]; simp)⟩

/-- C6: for every southern latitude the twelve-entry seasonal template used
by the monthly distribution is the template of the mirrored northern
latitude (same longitude) rotated by six positions. -/
theorem C6_southern_template_rot (lat lng : ℚ) (h : lat < 0) :
    monthly_factors lat lng =
      (monthly_factors (-lat) lng).drop 6 ++ (monthly_factors (-lat) lng).take 6 := by
  have h2 : ¬ (-lat < 0) := by linarith
  simp only [monthly_factors, abs_neg]
  rw [if_pos h, if_neg h2]

/-- Witness for C6 at latitude -5, longitude 0. -/
theorem C6_witness :
    ((-5 : ℚ) < 0) ∧
      monthly_factors (-5) 0 =
        (monthly_factors 5 0).drop 6 ++ (monthly_factors 5 0).take 6 :=
  ⟨by norm_num, by simpa using C6_southern_template_rot (-5) 0 (by norm_num)⟩

/-- C3: at the tilt that incurs no penalty, the annual POA is the
band base selected by absolute latitude (1900 below 10, 1750 below 20,
1800 below 30, 1500 below 45, 1200 below 60, else 800) times the monsoon
regional factor (0.85 when the longitude is outside [77, 92], else 0.90,
applied only for absolute latitude in [8, 37] and longitude in [68, 97]). -/
theorem C3_poa_band_and_monsoon (lat lng : ℚ) :
    _calculate_realistic_annual_poa lat lng (min (|lat|) 35) =
      (if |lat| < 10 then 1900
        else if |lat| < 20 then 1750
        else if |lat| < 30 then 1800
        else if |lat| < 45 then 1500
        else if |lat| < 60 then 1200
        else (800 : ℚ)) *
      (if 8 ≤ |lat| ∧ |lat| ≤ 37 ∧ 68 ≤ lng ∧ lng ≤ 97 then
        (if lng < 77 ∨ 92 < lng then 0.85 else 0.90) else 1) := by
  simp only [_calculate_realistic_annual_poa]
  rw [sub_self, abs_zero]
  have hpen : max (0.75 : ℚ) (1 - 0.01 * 0) = 1 := by norm_num [max_def]
  rw [hpen]
  split_ifs <;> ring

/-- C9: when the absolute latitude is at most 25, the +2 correction makes
the tilt differ from `min (|lat|) 35` by exactly 2, so the annual POA is
exactly 0.98 times the unpenalised POA; above 25 the penalty is exactly 1;
and at latitude 0, longitude 0 the returned annual irradiance is
1900 * 0.98 = 1862, not 1900. -/
theorem C9_tilt_penalty_sharp :
    (∀ lat lng : ℚ, |lat| ≤ 25 →
        optimal_tilt lat - min (|lat|) 35 = 2 ∧
          _calculate_realistic_annual_poa lat lng (optimal_tilt lat) =
            0.98 * _calculate_realistic_annual_poa lat lng (min (|lat|) 35)) ∧
      (∀ lat lng : ℚ, 25 < |lat| →
        _calculate_realistic_annual_poa lat lng (optimal_tilt lat) =
          _calculate_realistic_annual_poa lat lng (min (|lat|) 35)) ∧
      (response_of (get_solar_data ⟨0, 0, false⟩ FetchOutcome.failure)).map
          SolarResponse.annual_irradiance = some 1862 := by
  refine ⟨?_, ?_, ?_⟩
  · intro lat lng h
    have hmin : min (|lat|) 35 = |lat| := min_eq_left (by linarith)
    have hot : optimal_tilt lat = |lat| + 2 := by
      simp only [optimal_tilt]
      rw [hmin, if_pos h]
    refine ⟨by rw [hot, hmin]; ring, ?_⟩
    simp only [_calculate_realistic_annual_poa]
    rw [hot, hmin]
    rw [show (|lat| + 2 - |lat| : ℚ) = 2 by ring, sub_self, abs_zero]
    rw [show |(2 : ℚ)| = 2 from abs_of_pos (by norm_num)]
    have hp1 : max (0.75 : ℚ) (1 - 0.01 * 2) = 0.98 := by norm_num [max_def]
    have hp2 : max (0.75 : ℚ) (1 - 0.01 * 0) = 1 := by norm_num [max_def]
    rw [hp1, hp2]
    ring
  · intro lat lng h
    have h25 : ¬ min (|lat|) 35 ≤ 25 := by
      rcases le_or_lt (|lat|) 35 with hc | hc
      · rw [min_eq_left hc]; linarith
      · rw [min_eq_right hc.le]; linarith
    have hm35 : min (|lat|) 35 ≤ 35 := min_le_right _ _
    have hot : optimal_tilt lat = min (|lat|) 35 := by
      simp only [optimal_tilt]
      rw [if_neg h25, if_neg (by linarith : ¬ 50 < min (|lat|) 35)]
    rw [hot]
  · norm_num [get_solar_data, response_of, optimal_tilt, optimal_azimuth,
      _calculate_realistic_annual_poa, pyRound1, pyRoundInt, max_def, min_def]

/-- Witness for C9 at latitudes 10 and 30. -/
theorem C9_witness :
    (|(10 : ℚ)| ≤ 25 ∧
      (optimal_tilt 10 - min (|(10 : ℚ)|) 35 = 2 ∧
        _calculate_realistic_annual_poa 10 0 (optimal_tilt 10) =
          0.98 * _calculate_realistic_annual_poa 10 0 (min (|(10 : ℚ)|) 35))) ∧
      (25 < |(30 : ℚ)| ∧
        _calculate_realistic_annual_poa 30 0 (optimal_tilt 30) =
          _calculate_realistic_annual_poa 30 0 (min (|(30 : ℚ)|) 35)) :=
  ⟨⟨by norm_num, C9_tilt_penalty_sharp.1 10 0 (by norm_num)⟩,
    ⟨by norm_num, C9_tilt_penalty_sharp.2.1 30 0 (by norm_num)⟩⟩

/-- Python float modulo with a positive divisor is nonnegative. -/
theorem pyMod_nonneg (a : ℚ) {b : ℚ} (hb : 0 < b) : 0 ≤ pyMod a b := by
  unfold pyMod
  have h := Int.floor_le (a / b)
  have h2 : b * ((⌊a / b⌋ : ℤ) : ℚ) ≤ a := by
    calc b * ((⌊a / b⌋ : ℤ) : ℚ) ≤ b * (a / b) := mul_le_mul_of_nonneg_left h hb.le
      _ = a := by field_simp
  linarith

/-- Python float modulo with a positive divisor is below the divisor. -/
theorem pyMod_lt (a : ℚ) {b : ℚ} (hb : 0 < b) : pyMod a b < b := by
  unfold pyMod
  have h := Int.lt_floor_add_one (a / b)
  have h2 : a < b * (((⌊a / b⌋ : ℤ) : ℚ) + 1) := by
    calc a = b * (a / b) := by field_simp
      _ < b * (((⌊a / b⌋ : ℤ) : ℚ) + 1) := by exact (mul_lt_mul_left hb).mpr h
  nlinarith [h2]

/-- The centered 45°-bin index of a point of [45k - 22.5, 45k + 22.5). -/
theorem floor_bin (k : ℤ) (m : ℚ) (h₁ : 45 * (k : ℚ) - 22.5 ≤ m)
    (h₂ : m < 45 * (k : ℚ) + 22.5) : ⌊m / 45 + 1/2⌋ = k := by
  have harg : m / 45 + 1/2 = (m + 22.5) / 45 := by ring
  rw [harg, Int.floor_eq_iff]
  constructor
  · rw [le_div_iff₀ (by norm_num : (0 : ℚ) < 45)]
    linarith
  · rw [div_lt_iff₀ (by norm_num : (0 : ℚ) < 45)]
    push_cast
    linarith

/-- C5: the azimuth is 180 for nonnegative latitude and 0 otherwise; the
direction name implements exactly the 8-bin compass mapping with 45°-wide
bins centered on the compass points and wrap-around at 0°/360°; and in
particular azimuth 180 maps to "South" and azimuth 0 to "North". -/
theorem C5_azimuth_and_direction :
    (∀ lat : ℚ, optimal_azimuth lat = if 0 ≤ lat then 180 else 0) ∧
      (∀ az : ℚ, _get_direction_name az = compassBinSpec az) ∧
      _get_direction_name 180 = "South" ∧ _get_direction_name 0 = "North" := by
  refine ⟨fun lat => rfl, ?_, ?_, ?_⟩
  · intro az
    have h0 : 0 ≤ pyMod az 360 := pyMod_nonneg az (by norm_num)
    have h1 : pyMod az 360 < 360 := pyMod_lt az (by norm_num)
    simp only [_get_direction_name, compassBinSpec]
    set m := pyMod az 360 with hm
    rcases lt_or_le m 22.5 with hc | hc
    · rw [if_pos (Or.inl hc), floor_bin 0 m (by push_cast; linarith) (by push_cast; linarith)]
      rfl
    rcases lt_or_le m 67.5 with hd | hd
    · rw [if_neg (by push_neg; exact ⟨hc, by linarith⟩), if_pos hd,
        floor_bin 1 m (by push_cast; linarith) (by push_cast; linarith)]
      rfl
    rcases lt_or_le m 112.5 with he | he
    · rw [if_neg (by push_neg; exact ⟨hc, by linarith⟩), if_neg (not_lt.mpr hd), if_pos he,
        floor_bin 2 m (by push_cast; linarith) (by push_cast; linarith)]
      rfl
    rcases lt_or_le m 157.5 with hf | hf
    · rw [if_neg (by push_neg; exact ⟨hc, by linarith⟩), if_neg (not_lt.mpr hd),
        if_neg (not_lt.mpr he), if_pos hf,
        floor_bin 3 m (by push_cast; linarith) (by push_cast; linarith)]
      rfl
    rcases lt_or_le m 202.5 with hg | hg
    · rw [if_neg (by push_neg; exact ⟨hc, by linarith⟩), if_neg (not_lt.mpr hd),
        if_neg (not_lt.mpr he), if_neg (not_lt.mpr hf), if_pos hg,
        floor_bin 4 m (by push_cast; linarith) (by push_cast; linarith)]
      rfl
    rcases lt_or_le m 247.5 with hh | hh
    · rw [if_neg (by push_neg; exact ⟨hc, by linarith⟩), if_neg (not_lt.mpr hd),
        if_neg (not_lt.mpr he), if_neg (not_lt.mpr hf), if_neg (not_lt.mpr hg), if_pos hh,
        floor_bin 5 m (by push_cast; linarith) (by push_cast; linarith)]
      rfl
    rcases lt_or_le m 292.5 with hi | hi
    · rw [if_neg (by push_neg; exact ⟨hc, by linarith⟩), if_neg (not_lt.mpr hd),
        if_neg (not_lt.mpr he), if_neg (not_lt.mpr hf), if_neg (not_lt.mpr hg),
        if_neg (not_lt.mpr hh), if_pos hi,
        floor_bin 6 m (by push_cast; linarith) (by push_cast; linarith)]
      rfl
    rcases lt_or_le m 337.5 with hj | hj
    · rw [if_neg (by push_neg; exact ⟨hc, by linarith⟩), if_neg (not_lt.mpr hd),
        if_neg (not_lt.mpr he), if_neg (not_lt.mpr hf), if_neg (not_lt.mpr hg),
        if_neg (not_lt.mpr hh), if_neg (not_lt.mpr hi), if_pos hj,
        floor_bin 7 m (by push_cast; linarith) (by push_cast; linarith)]
      rfl
    · rw [if_pos (Or.inr hj), floor_bin 8 m (by push_cast; linarith) (by push_cast; linarith)]
      rfl
  · norm_num [_get_direction_name, pyMod]
  · norm_num [_get_direction_name, pyMod]

/-- Two strings differing on their first `n` characters are different. -/
theorem string_ne_of_take {s t : String} (n : ℕ) (h : s.data.take n ≠ t.data.take n) :
    s ≠ t :=
  fun he => h (by rw [he])

/-- The cloud-cover tip differs from the humidity tip for every cloud value. -/
theorem tip_cloud_ne_humidity (cc : ℤ) : tip_cloud cc ≠ tip_humidity := by
  apply string_ne_of_take 6
  have hd : (tip_cloud cc).data =
      "High cloud cover (".data ++
        ((toString cc).data ++ "%) may reduce current efficiency".data) := by
    simp [tip_cloud, String.data_append]
  rw [hd, List.take_append_of_le_length (by decide)]
  decide

/-- The tilt tip differs from the humidity tip for every tilt value. -/
theorem tip_tilt_ne_humidity (t : ℚ) : tip_tilt t ≠ tip_humidity := by
  apply string_ne_of_take 6
  have hd : (tip_tilt t).data =
      "Optimal tilt angle of ".data ++
        ((fmtF1 t).data ++ "° is ideal for your latitude".data) := by
    simp [tip_tilt, String.data_append]
  rw [hd, List.take_append_of_le_length (by decide)]
  decide

/-- Taking six elements of a list that starts with six explicit entries. -/
theorem head_take6_cons (a : String) (l : List String) :
    ((a :: l).take 6).head? = some a := rfl

/-- A string different from the first six entries of a list is not among
the first six elements the handler keeps. -/
theorem not_mem_take6_cons (x a b1 b2 b3 b4 b5 : String) (rest : List String)
    (h1 : x ≠ a) (h2 : x ≠ b1) (h3 : x ≠ b2) (h4 : x ≠ b3) (h5 : x ≠ b4) (h6 : x ≠ b5) :
    x ∉ ((a :: b1 :: b2 :: b3 :: b4 :: b5 :: rest).take 6) := by
  have ht : (a :: b1 :: b2 :: b3 :: b4 :: b5 :: rest).take 6 = [a, b1, b2, b3, b4, b5] := rfl
  rw [ht]
  simp [h1, h2, h3, h4, h5, h6]

/-- C7: when weather data is present, the returned efficiency gain is the
raw gain scaled by `1 - cloudPenalty - humidityPenalty`, the returned
annual irradiance is the raw POA scaled by `1 - cloudPenalty * 0.5`, and
the monthly distribution is computed from the adjusted annual total. -/
theorem C7_weather_adjustment (req : SolarRequest) (fetch : FetchOutcome)
    (wd : WeatherData) (resp : SolarResponse)
    (hiw : req.include_weather = true)
    (hwd : get_weather_data fetch = Except.ok (some wd))
    (hr : get_solar_data req fetch = HandlerResult.ok resp) :
    resp.efficiency_gain =
      pyRound1 ((min 25 (5 + |req.latitude| * 0.3)) *
        (1 - ((wd.cloud_cover : ℚ) / 100) * 0.3 -
          max 0 (((wd.humidity : ℚ) - 60) / 100) * 0.1)) ∧
      resp.annual_irradiance =
        pyRound1 (_calculate_realistic_annual_poa req.latitude req.longitude
          (optimal_tilt req.latitude) * (1 - ((wd.cloud_cover : ℚ) / 100) * 0.3 * 0.5)) ∧
      resp.monthly_data = (List.range 12).map (fun i =>
        MonthEntry.mk (months_abbr.getD i "")
          (pyRound1 ((_calculate_monthly_distribution req.latitude req.longitude
            (_calculate_realistic_annual_poa req.latitude req.longitude
              (optimal_tilt req.latitude) *
              (1 - ((wd.cloud_cover : ℚ) / 100) * 0.3 * 0.5))).getD i 0))) := by
  simp only [get_solar_data, hiw, hwd, eq_self_iff_true, if_true] at hr
  injection hr with h
  subst h
  exact ⟨rfl, rfl, rfl⟩

/-- Witness for C7 at the example request and weather response. -/
theorem C7_witness :
    req_weather_example.include_weather = true ∧
      get_weather_data fetch_example = Except.ok (some weather_example) ∧
      resp_example.annual_irradiance =
        pyRound1 (_calculate_realistic_annual_poa req_weather_example.latitude
          req_weather_example.longitude (optimal_tilt req_weather_example.latitude) *
          (1 - ((weather_example.cloud_cover : ℚ) / 100) * 0.3 * 0.5)) :=
  ⟨rfl, rfl,
    (C7_weather_adjustment req_weather_example fetch_example weather_example resp_example
      rfl rfl rfl).2.1⟩

/-- C8: the returned tips list never has more than six entries, and when
weather data is present with cloud cover above 70 the cloud-cover tip is
the first entry of the returned list. -/
theorem C8_tips_bound_and_cloud_first (req : SolarRequest) (fetch : FetchOutcome)
    (resp : SolarResponse) (hr : get_solar_data req fetch = HandlerResult.ok resp) :
    resp.tips.length ≤ 6 ∧
      ∀ wd : WeatherData, resp.weather_data = some wd → 70 < wd.cloud_cover →
        resp.tips.head? = some (tip_cloud wd.cloud_cover) := by
  simp only [get_solar_data] at hr
  split at hr
  · exact absurd hr (by simp)
  case h_2 owd heq =>
    cases owd with
    | none =>
      injection hr with h
      subst h
      refine ⟨by rw [List.length_take]; exact min_le_left _ _, ?_⟩
      intro wd hwd hcc
      exact absurd hwd (by simp)
    | some wd0 =>
      injection hr with h
      subst h
      refine ⟨by rw [List.length_take]; exact min_le_left _ _, ?_⟩
      intro wd hwd hcc
      dsimp only at hwd ⊢
      replace hwd : wd0 = wd := by injection hwd
      subst hwd
      rw [if_pos hcc]
      simp only [List.singleton_append, List.cons_append, List.append_assoc]
      exact head_take6_cons _ _

/-- Witness for C8 at the example request (cloud cover 80). -/
theorem C8_witness :
    resp_example.tips.length ≤ 6 ∧
      resp_example.weather_data = some weather_example ∧
      70 < weather_example.cloud_cover ∧
      resp_example.tips.head? = some (tip_cloud weather_example.cloud_cover) := by
  have h := C8_tips_bound_and_cloud_first req_weather_example fetch_example resp_example rfl
  exact ⟨h.1, rfl, by norm_num [weather_example, pyRoundInt],
    h.2 weather_example rfl (by norm_num [weather_example, pyRoundInt])⟩

/-- C10: when weather data is present with cloud cover above 70 and
humidity above 80, the appended high-humidity tip is pushed past position
six by the prepended cloud-cover tip and is absent from the returned
tips list. -/
theorem C10_humidity_tip_never_returned (req : SolarRequest) (fetch : FetchOutcome)
    (resp : SolarResponse) (wd : WeatherData)
    (hr : get_solar_data req fetch = HandlerResult.ok resp)
    (hwd : resp.weather_data = some wd)
    (hcc : 70 < wd.cloud_cover) (hhum : 80 < wd.humidity) :
    tip_humidity ∉ resp.tips := by
  simp only [get_solar_data] at hr
  split at hr
  · exact absurd hr (by simp)
  case h_2 owd heq =>
    cases owd with
    | none =>
      injection hr with h
      subst h
      exact absurd hwd (by simp)
    | some wd0 =>
      injection hr with h
      subst h
      dsimp only at hwd ⊢
      replace hwd : wd0 = wd := by injection hwd
      subst hwd
      rw [if_pos hcc, if_pos hhum]
      split
      · simp only [List.singleton_append, List.cons_append, List.append_assoc, List.nil_append]
        exact not_mem_take6_cons _ _ _ _ _ _ _ _
          (Ne.symm (tip_cloud_ne_humidity _)) (by decide) (by decide) (by decide) (by decide)
          (Ne.symm (tip_tilt_ne_humidity _))
      · split
        · simp only [List.singleton_append, List.cons_append, List.append_assoc, List.nil_append]
          exact not_mem_take6_cons _ _ _ _ _ _ _ _
            (Ne.symm (tip_cloud_ne_humidity _)) (by decide) (by decide) (by decide) (by decide)
            (Ne.symm (tip_tilt_ne_humidity _))
        · simp only [List.singleton_append, List.cons_append, List.append_assoc, List.nil_append]
          exact not_mem_take6_cons _ _ _ _ _ _ _ _
            (Ne.symm (tip_cloud_ne_humidity _)) (by decide) (by decide) (by decide) (by decide)
            (Ne.symm (tip_tilt_ne_humidity _))

/-- Witness for C10 at the example request (cloud cover 80, humidity 85). -/
theorem C10_witness :
    resp_example.weather_data = some weather_example ∧
      70 < weather_example.cloud_cover ∧ 80 < weather_example.humidity ∧
      tip_humidity ∉ resp_example.tips :=
  ⟨rfl, by norm_num [weather_example, pyRoundInt], by norm_num [weather_example, pyRoundInt],
    C10_humidity_tip_never_returned req_weather_example fetch_example resp_example
      weather_example rfl rfl (by norm_num [weather_example, pyRoundInt])
      (by norm_num [weather_example, pyRoundInt])⟩

/-- A transport-level failure (network error, timeout, non-2xx, invalid
JSON) is caught and reported as missing weather data. -/
theorem get_weather_data_transport_failure :
    get_weather_data FetchOutcome.failure = Except.ok none := rfl

/-- A response without a usable `"current"` block is reported as missing
weather data. -/
theorem get_weather_data_missing_current :
    get_weather_data (FetchOutcome.response none) = Except.ok none := rfl

/-- When the weather fetch fails at the transport level, the handler still
succeeds and the numeric fields equal the unadjusted (no-weather)
computation, with `weather_data` null. -/
theorem handler_transport_failure_unadjusted (lat lng : ℚ) (resp resp' : SolarResponse)
    (h : get_solar_data ⟨lat, lng, true⟩ FetchOutcome.failure = HandlerResult.ok resp)
    (h' : get_solar_data ⟨lat, lng, false⟩ FetchOutcome.failure = HandlerResult.ok resp') :
    resp.weather_data = none ∧ resp.annual_irradiance = resp'.annual_irradiance ∧
      resp.efficiency_gain = resp'.efficiency_gain ∧
      resp.monthly_data = resp'.monthly_data := by
  simp only [get_solar_data, eq_self_iff_true, if_true, Bool.false_eq_true, if_false] at h h'
  injection h with hh
  injection h' with hh'
  subst hh
  subst hh'
  exact ⟨rfl, rfl, rfl, rfl⟩

/-- C4 (failing input): when the parsed `"current"` block is present but
malformed (here: missing `temperature_2m`), `round(None, 1)` raises a
`TypeError` that the weather layer does not catch, so the whole request
fails with HTTP 500 instead of succeeding with `weather_data` null. -/
theorem C4_malformed_current_fails :
    get_weather_data (FetchOutcome.response (some current_missing_temp)) =
        Except.error PyError.typeError ∧
      get_solar_data ⟨10, 20, true⟩ (FetchOutcome.response (some current_missing_temp)) =
        HandlerResult.httpError 500 :=
  ⟨rfl, rfl⟩
